import Mathlib

/-!
Shallow embedding of two Streamlit frontend subsystems, translated from the
repository sources:

* the file-upload state machine of
  `src/frontend/src/components/widgets/FileUploader/FileUploader.tsx`, and
* the block/element tree renderer of
  `src/frontend/src/components/core/Block/Block.tsx`.

React's `setState` updater queue is serialized, so the stateful component is
embedded as pure functions threading the `files` list (and, where relevant,
the registry and the static id counter) explicitly.  External collaborators
whose sources are not part of the sample (`UploadFileInfo.tsx`,
`WidgetStateManager`, `ReportRunState`) are modelled from the specification,
and are marked as such in their doc comments.
-/

namespace StreamlitModel

/-- A dropped file, as far as the uploader logic inspects it: `dropHandler`
and `getErrorMessage` only read the file object's `type` (MIME type); the
name is carried along for identification. -/
structure File where
  name : String
  type : String
  deriving Repr, DecidableEq

/-- One error attached to a `FileRejection` by the dropzone collaborator.
The source only ever reads `error.code`. -/
structure FileError where
  code : String
  deriving Repr, DecidableEq

/-- A rejected file as delivered by react-dropzone: the file plus a nonempty
list of errors explaining the rejection. -/
structure FileRejection where
  file : File
  errors : List FileError
  deriving Repr, DecidableEq

/-- Status of one upload record (`UploadFileInfo.status` in the source): a
tagged union of `uploading` (with its cancel token and progress percentage),
`uploaded`, and `error`.  The axios cancel token is opaque in the source; it
is identified here by the local file id of the record it was created for,
which is unique per `uploadFile` call, like a fresh `CancelToken.source()`. -/
inductive UploadStatus
  | uploading (cancelToken : Int) (progress : Nat)
  | uploaded
  | error (errorMessage : String)
  deriving Repr, DecidableEq

/-- Modelled from the spec: `UploadFileInfo` (its source file is not in the
sample).  An `UploadRecord { id, file, status }` whose id is a negative
locally-allocated placeholder until the server assigns a positive id. -/
structure UploadFileInfo where
  file : File
  id : Int
  status : UploadStatus
  deriving Repr, DecidableEq

/-- Modelled from the spec: `UploadFileInfo.setStatus` returns a copy with
the new status; on transport success the server-assigned positive id
replaces the local negative id. -/
def UploadFileInfo.setStatus (f : UploadFileInfo) (status : UploadStatus)
    (newId : Option Int) : UploadFileInfo :=
  ⟨f.file, newId.getD f.id, status⟩

/-- `FileUploaderStatus` from the source: `ready` / `updating`. -/
inductive FileUploaderStatus
  | ready
  | updating
  deriving Repr, DecidableEq

/-- The `isFileUpdating` predicate inside the `status` getter. -/
def isFileUpdating (f : UploadFileInfo) : Bool :=
  match f.status with
  | .uploading _ _ => true
  | _ => false

/-- The `status` getter: `updating` if any record is uploading, else
`ready`. -/
def status (files : List UploadFileInfo) : FileUploaderStatus :=
  if files.any isFileUpdating then .updating else .ready

/-- The `uploadedFileIds` getter: ids of the records whose status is
`uploaded`, in record order. -/
def uploadedFileIds (files : List UploadFileInfo) : List Int :=
  (files.filter fun f =>
    match f.status with
    | .uploaded => true
    | _ => false).map fun f => f.id

/-- Modelled from the spec: the external Widget State registry
(`WidgetStateManager`, whose source is not in the sample), projected to the
one widget id this uploader owns.  `intValue` is the stored int-array value
(`getIntArrayValue` reads it, `setIntArrayValue` writes it); `intLog` and
`strLog` record every `set` call together with its `fromUi` flag. -/
structure Registry where
  intValue : Option (List Int)
  intLog : List (List Int × Bool)
  strLog : List (List String × Bool)
  deriving Repr, DecidableEq

/-- Modelled from the spec: `getIntArrayValue` returns the stored value. -/
def Registry.getIntArrayValue (r : Registry) : Option (List Int) :=
  r.intValue

/-- Modelled from the spec: `setIntArrayValue` stores the value and records
the call with its `fromUi` flag. -/
def Registry.setIntArrayValue (r : Registry) (v : List Int) (fromUi : Bool) :
    Registry :=
  ⟨some v, r.intLog ++ [(v, fromUi)], r.strLog⟩

/-- Modelled from the spec: `setStringArrayValue` records the call with its
`fromUi` flag (the uploader only ever writes `[]` on this channel). -/
def Registry.setStringArrayValue (r : Registry) (v : List String)
    (fromUi : Bool) : Registry :=
  ⟨r.intValue, r.intLog, r.strLog ++ [(v, fromUi)]⟩

/-- `nextLocalFileId`: the static method returns the current value of the
class-level `localFileIdCounter` and post-decrements it. -/
def nextLocalFileId (counter : Int) : Int × Int :=
  (counter, counter - 1)

/-- The record created at the top of `uploadFile`, together with the
decremented counter: a fresh local id, status
`uploading { cancelToken, progress: 1 }`. -/
def uploadFileStep (file : File) (counter : Int) : UploadFileInfo × Int :=
  let idc := nextLocalFileId counter
  (⟨file, idc.1, .uploading idc.1 1⟩, idc.2)

/-- `acceptedFiles.forEach(this.uploadFile)`: create and append one
uploading record per accepted file, threading the static counter. -/
def uploadAll (acceptedFiles : List File) (counter : Int) :
    List UploadFileInfo × Int :=
  match acceptedFiles with
  | [] => ([], counter)
  | f :: rest =>
    let fc := uploadFileStep f counter
    let tailRes := uploadAll rest fc.2
    (fc.1 :: tailRes.1, tailRes.2)

/-- `getErrorMessage`, translated case for case.  The source's
`file-too-large` branch renders `getSizeDisplay(maxUploadSizeInBytes, Byte)`
via the `FileHelper` module, which is not in the sample; its rendered output
is taken as the `maxSizeDisplay` argument. -/
def getErrorMessage (maxSizeDisplay : String) (errorCode : String)
    (file : File) : String :=
  match errorCode with
  | "file-too-large" => "File must be " ++ maxSizeDisplay ++ " or smaller."
  | "file-invalid-type" => file.type ++ " files are not allowed."
  | "file-too-small" => "File size is too small."
  | "too-many-files" => "Only one file is allowed."
  | _ => "Unexpected error. Please try again."

/-- `rejected.errors[0].code`: the code of the first error of a rejection.
The dropzone collaborator always attaches at least one error; `""` stands
for the out-of-contract empty case the source would crash on. -/
def firstErrorCode (r : FileRejection) : String :=
  match r.errors with
  | [] => ""
  | e :: _ => e.code

/-- The salvage step of `dropHandler`: `findIndex` of the first rejection
with exactly one error of code `too-many-files`, returning its file and the
rejection list with that entry spliced out (`splice(firstFileIndex, 1)`);
`none` with the original list when no rejection matches. -/
def salvageFirst (rs : List FileRejection) : Option File × List FileRejection :=
  match rs with
  | [] => (none, [])
  | r :: rest =>
    if r.errors.length = 1 ∧ firstErrorCode r = "too-many-files" then
      (some r.file, rest)
    else
      let tailRes := salvageFirst rest
      (tailRes.1, r :: tailRes.2)

/-- `removeFile`: drop every record whose id equals `idToRemove`.  Note that
this helper only filters the list; it never touches a cancel token. -/
def removeFile (files : List UploadFileInfo) (idToRemove : Int) :
    List UploadFileInfo :=
  files.filter fun f => f.id != idToRemove

/-- `updateFile`: replace the record with the given id (no-op when no record
has that id). -/
def updateFile (files : List UploadFileInfo) (idToUpdate : Int)
    (replacement : UploadFileInfo) : List UploadFileInfo :=
  files.map fun f => if f.id == idToUpdate then replacement else f

/-- The rejected-files branch of `dropHandler`: one terminal `error` record
per rejection, each drawing a fresh local id from the static counter, with
the message synthesized from the rejection's first error code. -/
def mkRejectedInfos (maxSizeDisplay : String) (rejected : List FileRejection)
    (counter : Int) : List UploadFileInfo × Int :=
  match rejected with
  | [] => ([], counter)
  | r :: rest =>
    let info : UploadFileInfo :=
      ⟨r.file, counter,
        .error (getErrorMessage maxSizeDisplay (firstErrorCode r) r.file)⟩
    let tailRes := mkRejectedInfos maxSizeDisplay rest (counter - 1)
    (info :: tailRes.1, tailRes.2)

/-- Result of one `dropHandler` call: the new `files` state, the advanced
static counter, the local ids for which a transport upload was enqueued, and
the cancel tokens invoked.  `cancels` is constantly `[]` because `dropHandler`
never invokes a cancel handle: the single-file replace path goes through
`removeFile` (a plain filter), not `deleteFile`. -/
structure DropResult where
  files : List UploadFileInfo
  counter : Int
  uploads : List Int
  cancels : List Int
  deriving Repr, DecidableEq

/-- `dropHandler`, step for step from the source:
1. single-file salvage: when no file was accepted and more than one was
   rejected, pull the first rejection whose sole error is `too-many-files`
   into the accepted list and splice it out of the rejected list;
2. single-file replace: when a file was accepted and a record is present,
   `removeFile(files[0].id)`;
3. upload each accepted file (`uploadFile`);
4. append a terminal `error` record per remaining rejection. -/
def dropHandler (maxSizeDisplay : String) (multipleFiles : Bool)
    (files : List UploadFileInfo) (counter : Int)
    (acceptedFiles : List File) (rejectedFiles : List FileRejection) :
    DropResult :=
  let accRej :=
    if multipleFiles = false ∧ acceptedFiles = [] ∧ rejectedFiles.length > 1
    then
      match salvageFirst rejectedFiles with
      | (some f, rest) => (acceptedFiles ++ [f], rest)
      | (none, _) => (acceptedFiles, rejectedFiles)
    else (acceptedFiles, rejectedFiles)
  let accepted := accRej.1
  let rejected := accRej.2
  let files1 :=
    if multipleFiles = false ∧ accepted ≠ [] ∧ files ≠ [] then
      match files with
      | [] => files
      | f0 :: _ => removeFile files f0.id
    else files
  let upl := uploadAll accepted counter
  let files2 := files1 ++ upl.1
  let rej := mkRejectedInfos maxSizeDisplay rejected upl.2
  let files3 := if rejected.length > 0 then files2 ++ rej.1 else files2
  ⟨files3, rej.2, upl.1.map fun f => f.id, []⟩

/-- The success continuation of `uploadFile`'s transport promise:
`updateFile(uploadingFile.id, uploadingFile.setStatus({uploaded}, newFileId))`.
`uploadingFile` is the record captured by the closure when the upload was
enqueued. -/
def settleSuccess (files : List UploadFileInfo)
    (uploadingFile : UploadFileInfo) (newFileId : Int) :
    List UploadFileInfo :=
  updateFile files uploadingFile.id
    (uploadingFile.setStatus .uploaded (some newFileId))

/-- The failure continuation of `uploadFile`'s transport promise: a
cancellation error is ignored; any other error replaces the record with an
`error` record (`err ? err.toString() : "Unknown error"`). -/
def settleFailure (files : List UploadFileInfo)
    (uploadingFile : UploadFileInfo) (isCancel : Bool) (err : Option String) :
    List UploadFileInfo :=
  if isCancel then files
  else
    updateFile files uploadingFile.id
      (uploadingFile.setStatus (.error (err.getD "Unknown error")) none)

/-- Result of `deleteFile`: the new `files` state and the cancel tokens
invoked. -/
structure DeleteResult where
  files : List UploadFileInfo
  cancels : List Int
  deriving Repr, DecidableEq

/-- `deleteFile`: find the record with the given id (no-op when absent),
invoke its cancel token when it is uploading, then `removeFile`. -/
def deleteFile (files : List UploadFileInfo) (fileId : Int) : DeleteResult :=
  match files.find? fun f => f.id == fileId with
  | none => ⟨files, []⟩
  | some f =>
    match f.status with
    | .uploading tok _ => ⟨removeFile files fileId, [tok]⟩
    | _ => ⟨removeFile files fileId, []⟩

/-- `componentDidUpdate`, on the single widget this uploader owns:
a `false → true` transition of the disabled prop resets the files and pushes
`[]` on the string-array channel with `fromUi: false` and returns; otherwise,
while `status` is `ready`, pushes `uploadedFileIds` with `fromUi: true` when
it differs from the stored registry value (`?? []`). -/
def componentDidUpdate (prevDisabled disabled : Bool)
    (files : List UploadFileInfo) (reg : Registry) :
    List UploadFileInfo × Registry :=
  if prevDisabled ≠ disabled ∧ disabled = true then
    ([], reg.setStringArrayValue [] false)
  else if ¬ status files = FileUploaderStatus.ready then
    (files, reg)
  else
    let prevWidgetValue := reg.getIntArrayValue.getD []
    let newWidgetValue := uploadedFileIds files
    if ¬ newWidgetValue = prevWidgetValue then
      (files, reg.setIntArrayValue newWidgetValue true)
    else
      (files, reg)

/-- The class-level (static) id counter together with the instance state of
two independently constructed `FileUploader` instances.  In the source
`localFileIdCounter` is declared `private static`, so there is exactly one
counter for the whole class, not one per instance; each instance only owns
its `files` list. -/
structure TwoInstances where
  localFileIdCounter : Int
  filesA : List UploadFileInfo
  filesB : List UploadFileInfo
  deriving Repr, DecidableEq

/-- Two freshly constructed instances: the class initializer sets the static
counter to `-1`, and each constructor starts with `files = []`. -/
def freshInstances : TwoInstances :=
  ⟨-1, [], []⟩

/-- Instance A calls `FileUploader.nextLocalFileId()`: the returned id and
the world afterwards.  The decrement lands on the class-level counter. -/
def allocA (w : TwoInstances) : Int × TwoInstances :=
  let idc := nextLocalFileId w.localFileIdCounter
  (idc.1, ⟨idc.2, w.filesA, w.filesB⟩)

/-- Instance B calls `FileUploader.nextLocalFileId()`: the returned id and
the world afterwards.  The decrement lands on the same class-level counter
as `allocA`. -/
def allocB (w : TwoInstances) : Int × TwoInstances :=
  let idc := nextLocalFileId w.localFileIdCounter
  (idc.1, ⟨idc.2, w.filesA, w.filesB⟩)

/-- An element payload as far as `Block.tsx` inspects it: its `type` tag,
the `reportId` of the run that produced it, and the caller-supplied widget
id the payload may carry (present for widget elements; `renderElements`
never reads it). -/
structure SimpleElement where
  type : String
  reportId : String
  widgetId : Option String
  deriving Repr, DecidableEq

/-- A node of the render tree: a leaf element (`ImmutableMap`) or a block
(`List` of child nodes). -/
inductive RNode
  | element (e : SimpleElement)
  | block (children : List RNode)

/-- An element of type `empty` is the one payload `renderElement` turns into
`undefined`, so no node (and no key) is produced for it; blocks are always
rendered. -/
def isEmptyElement : RNode → Bool
  | .element e => e.type == "empty"
  | .block _ => false

/-- The rendering key `renderElements` assigns to the child at `index`: the
source passes `key={index}` both for blocks and for non-empty elements, and
produces no node for empty elements.  No field of the payload — in
particular no widget id — enters the key. -/
def assignedKey (elements : List RNode) (index : Nat) : Option Nat :=
  match elements[index]? with
  | none => none
  | some n => if isEmptyElement n then none else some index

/-- Modelled from the spec: the run-state enum (`lib/ReportRunState.ts` is
not in the sample): `{ NotRunning, Running, RerunRequested }`. -/
inductive ReportRunState
  | notRunning
  | running
  | rerunRequested
  deriving Repr, DecidableEq

/-- `isStaleElement`, branch for branch: stale when a rerun was requested;
while running, stale iff the element's `reportId` differs from the props'
`reportId`; otherwise not stale. -/
def isStaleElement (runState : ReportRunState) (reportId : String)
    (element : SimpleElement) : Bool :=
  if runState = ReportRunState.rerunRequested then true
  else if runState = ReportRunState.running then
    element.reportId != reportId
  else false

/-! ### Helper lemmas -/

theorem updateFile_of_id_not_mem (files : List UploadFileInfo)
    (idToUpdate : Int) (replacement : UploadFileInfo)
    (h : ∀ f ∈ files, f.id ≠ idToUpdate) :
    updateFile files idToUpdate replacement = files := by
  induction files with
  | nil => rfl
  | cons f rest ih =>
    have hf : (f.id == idToUpdate) = false := by
      simpa using h f (List.mem_cons_self f rest)
    have hrest : ∀ g ∈ rest, g.id ≠ idToUpdate := fun g hg =>
      h g (List.mem_cons_of_mem f hg)
    simp only [updateFile, List.map_cons, hf, Bool.false_eq_true, if_false]
    exact congrArg (f :: ·) (ih hrest)

theorem removeFile_id_ne (files : List UploadFileInfo) (idToRemove : Int) :
    ∀ f ∈ removeFile files idToRemove, f.id ≠ idToRemove := by
  intro f hf
  simp only [removeFile, List.mem_filter, bne_iff_ne, ne_eq] at hf
  exact hf.2

theorem mkRejectedInfos_all_tooMany (maxSizeDisplay : String)
    (rejected : List FileRejection) (counter : Int)
    (h : ∀ x ∈ rejected, x.errors = [⟨"too-many-files"⟩]) :
    ∀ x ∈ (mkRejectedInfos maxSizeDisplay rejected counter).1,
      x.status = .error "Only one file is allowed." := by
  induction rejected generalizing counter with
  | nil => simp [mkRejectedInfos]
  | cons r rest ih =>
    intro x hx
    have hr : r.errors = [⟨"too-many-files"⟩] :=
      h r (List.mem_cons_self r rest)
    have hrest : ∀ y ∈ rest, y.errors = [⟨"too-many-files"⟩] := fun y hy =>
      h y (List.mem_cons_of_mem r hy)
    simp only [mkRejectedInfos, List.mem_cons] at hx
    rcases hx with hx | hx
    · subst hx
      simp [hr, firstErrorCode, getErrorMessage]
    · exact ih (counter - 1) hrest x hx

/-! ### C6 — staleness predicate -/

/-- C6: a node is stale iff the run state is RerunRequested, or the run
state is Running and the node's origin run id differs from the context's run
id; under any other run state no node is stale. -/
theorem isStaleElement_iff (runState : ReportRunState) (reportId : String)
    (element : SimpleElement) :
    isStaleElement runState reportId element = true ↔
      runState = ReportRunState.rerunRequested ∨
        (runState = ReportRunState.running ∧ element.reportId ≠ reportId) := by
  cases runState <;> simp [isStaleElement]

/-! ### C7 — disabled transition resets and pushes `[]` -/

/-- C7: on a `false → true` transition of the disabled prop,
`componentDidUpdate` clears every record and pushes `[]` marked
`fromUi: false`, for every `files` list (in particular with uploads still in
flight) and every registry state, touching nothing else. -/
theorem componentDidUpdate_disabled_reset (files : List UploadFileInfo)
    (reg : Registry) :
    componentDidUpdate false true files reg =
      ([], ⟨reg.intValue, reg.intLog, reg.strLog ++ [([], false)]⟩) := by
  simp [componentDidUpdate, Registry.setStringArrayValue]

/-! ### C1 — rendering keys are positional -/

/-- C1 (counterexample): the very same element payload, widget id
`"widget-1"` unchanged, gets key `0` at position 0 and key `1` after one
sibling is inserted before it — the renderer's key ignores the widget id,
refuting the claimed widget-id-preferring key resolution. -/
theorem assignedKey_not_widgetId_stable :
    assignedKey [RNode.element ⟨"text", "runA", some "widget-1"⟩] 0
      = some 0 ∧
    assignedKey [RNode.element ⟨"text", "runA", none⟩,
      RNode.element ⟨"text", "runA", some "widget-1"⟩] 1 = some 1 ∧
    (0 : Nat) ≠ 1 := by
  constructor
  · rfl
  · exact ⟨rfl, by decide⟩

/-- C1 (amended): the key `renderElements` assigns to every rendered child
is its positional index, unconditionally; no widget id is consulted. -/
theorem assignedKey_eq_index (elements : List RNode) (index : Nat)
    (n : RNode) (h1 : elements[index]? = some n)
    (h2 : isEmptyElement n = false) :
    assignedKey elements index = some index := by
  simp [assignedKey, h1, h2]

/-- Witness for `assignedKey_eq_index` at a concrete two-element tree. -/
theorem assignedKey_eq_index_witness :
    assignedKey [RNode.element ⟨"empty", "runA", none⟩,
      RNode.element ⟨"text", "runA", some "w"⟩] 1 = some 1 :=
  assignedKey_eq_index _ 1 (RNode.element ⟨"text", "runA", some "w"⟩)
    rfl rfl

/-! ### C8 — the local-id counter is static (class-level), not
per-instance -/

/-- C8 (counterexample): with two freshly constructed instances, B's first
allocation returns `-1`; but after A allocates once, B's first allocation
returns `-2` — A's allocation advanced the counter B draws from, so the
counter is shared between instances, refuting the claimed per-instance
scope. -/
theorem localFileIdCounter_not_per_instance :
    (allocB freshInstances).1 = -1 ∧
    (allocB (allocA freshInstances).2).1 = -2 ∧
    (allocB (allocA freshInstances).2).1 ≠ (allocB freshInstances).1 := by
  refine ⟨rfl, rfl, by decide⟩

/-- C8 (amended): every allocation returns a fresh negative id and strictly
decreases the class-level counter, but that counter is shared: both
instances would draw the same next id, and an allocation by A strictly
lowers the id B receives next. -/
theorem localFileIdCounter_shared_decreasing (w : TwoInstances)
    (h : w.localFileIdCounter ≤ -1) :
    (allocA w).1 < 0 ∧
    (allocA w).1 = (allocB w).1 ∧
    (allocA w).2.localFileIdCounter < w.localFileIdCounter ∧
    (allocB (allocA w).2).1 < (allocA w).1 := by
  refine ⟨?_, ?_, ?_, ?_⟩ <;> simp only [allocA, allocB, nextLocalFileId] <;>
    omega

/-- Witness for `localFileIdCounter_shared_decreasing` at the freshly
constructed pair of instances. -/
theorem localFileIdCounter_shared_decreasing_witness :
    (allocA freshInstances).1 < 0 ∧
    (allocA freshInstances).1 = (allocB freshInstances).1 ∧
    (allocA freshInstances).2.localFileIdCounter
      < freshInstances.localFileIdCounter ∧
    (allocB (allocA freshInstances).2).1 < (allocA freshInstances).1 :=
  localFileIdCounter_shared_decreasing freshInstances (by decide)

/-! ### C9 — a new upload record starts at progress 1, not 0 -/

/-- C9 (counterexample): the record `uploadFile` creates at enqueue time has
status `uploading` with progress `1`, not the claimed progress `0`. -/
theorem uploadFile_progress_not_zero :
    ((uploadFileStep ⟨"a.txt", "text/plain"⟩ (-1)).1).status
        = .uploading (-1) 1 ∧
    ((uploadFileStep ⟨"a.txt", "text/plain"⟩ (-1)).1).status
        ≠ .uploading (-1) 0 := by
  exact ⟨rfl, by decide⟩

/-- C9 (amended): every record created for an accepted file at the moment
its transport upload is enqueued has status `uploading` with progress
percentage 1. -/
theorem uploadAll_progress_one (acceptedFiles : List File) (counter : Int) :
    ∀ info ∈ (uploadAll acceptedFiles counter).1,
      ∃ tok, info.status = .uploading tok 1 := by
  induction acceptedFiles generalizing counter with
  | nil => simp [uploadAll]
  | cons f rest ih =>
    intro info hinfo
    simp only [uploadAll, uploadFileStep, nextLocalFileId,
      List.mem_cons] at hinfo
    rcases hinfo with hinfo | hinfo
    · subst hinfo
      exact ⟨counter, rfl⟩
    · exact ih _ info hinfo

/-- Witness for `uploadAll_progress_one` on one concrete accepted file. -/
theorem uploadAll_progress_one_witness :
    ∃ tok,
      (⟨⟨"a.txt", "text/plain"⟩, -1,
        .uploading (-1) 1⟩ : UploadFileInfo).status = .uploading tok 1 :=
  uploadAll_progress_one [⟨"a.txt", "text/plain"⟩] (-1)
    ⟨⟨"a.txt", "text/plain"⟩, -1, .uploading (-1) 1⟩ (by decide)

/-! ### C10 — deleting an absent id is a no-op -/

/-- C10: `deleteFile` with an id no record carries leaves the collection
unchanged and invokes no cancel handle. -/
theorem deleteFile_absent_noop (files : List UploadFileInfo) (fileId : Int)
    (h : ∀ f ∈ files, f.id ≠ fileId) :
    deleteFile files fileId = ⟨files, []⟩ := by
  have hnone : (files.find? fun f => f.id == fileId) = none := by
    rw [List.find?_eq_none]
    intro x hx
    simpa using h x hx
  simp [deleteFile, hnone]

/-- Witness for `deleteFile_absent_noop` on a concrete one-record state. -/
theorem deleteFile_absent_noop_witness :
    deleteFile [⟨⟨"f.csv", "text/csv"⟩, -1, .uploaded⟩] (-2)
      = ⟨[⟨⟨"f.csv", "text/csv"⟩, -1, .uploaded⟩], []⟩ :=
  deleteFile_absent_noop [⟨⟨"f.csv", "text/csv"⟩, -1, .uploaded⟩] (-2)
    (by decide)

/-! ### C5 — deletion suppresses late transport callbacks -/

/-- C5: when `deleteFile` removes an uploading record, its cancel token is
invoked, the id is gone from the collection, and any late-arriving settle
callback for the closure-captured record — success, cancellation failure, or
other failure — leaves the collection exactly as it was after removal. -/
theorem deleteFile_suppresses_late_callbacks (files : List UploadFileInfo)
    (orig : UploadFileInfo) (newFileId : Int) (err : Option String)
    (tok : Int) (p : Nat)
    (hfound : ∃ g, (files.find? fun f => f.id == orig.id) = some g ∧
      g.status = .uploading tok p) :
    (deleteFile files orig.id).cancels = [tok] ∧
    (∀ f ∈ (deleteFile files orig.id).files, f.id ≠ orig.id) ∧
    settleSuccess (deleteFile files orig.id).files orig newFileId
      = (deleteFile files orig.id).files ∧
    settleFailure (deleteFile files orig.id).files orig true err
      = (deleteFile files orig.id).files ∧
    settleFailure (deleteFile files orig.id).files orig false err
      = (deleteFile files orig.id).files := by
  obtain ⟨g, hg, hst⟩ := hfound
  have hdel : deleteFile files orig.id
      = ⟨removeFile files orig.id, [tok]⟩ := by
    simp [deleteFile, hg, hst]
  rw [hdel]
  have hne := removeFile_id_ne files orig.id
  refine ⟨rfl, hne, ?_, rfl, ?_⟩
  · exact updateFile_of_id_not_mem _ _ _ hne
  · exact updateFile_of_id_not_mem _ _ _ hne

/-- Witness for `deleteFile_suppresses_late_callbacks`: one uploading record
with id `-1`, deleted; its token is invoked. -/
theorem deleteFile_suppresses_late_callbacks_witness :
    (deleteFile [⟨⟨"a.txt", "text/plain"⟩, -1, .uploading (-1) 1⟩]
        (-1)).cancels = [-1] :=
  (deleteFile_suppresses_late_callbacks
    [⟨⟨"a.txt", "text/plain"⟩, -1, .uploading (-1) 1⟩]
    ⟨⟨"a.txt", "text/plain"⟩, -1, .uploading (-1) 1⟩ 7 none (-1) 1
    ⟨⟨⟨"a.txt", "text/plain"⟩, -1, .uploading (-1) 1⟩, by decide, rfl⟩).1

/-! ### C3 — single-file replace removes but does not cancel -/

/-- C3 (counterexample): in single-file mode, dropping `g.csv` while the
present record for `f.csv` is `uploading` replaces the record — but invokes
no cancel handle: `dropHandler` removes via `removeFile`, never touching the
token, refuting the claimed cancel-before-removal. -/
theorem dropHandler_replace_no_cancel_counterexample :
    (⟨⟨"f.csv", "text/csv"⟩, -5,
        .uploading (-5) 50⟩ : UploadFileInfo).status = .uploading (-5) 50 ∧
    (dropHandler "X" false [⟨⟨"f.csv", "text/csv"⟩, -5, .uploading (-5) 50⟩]
        (-6) [⟨"g.csv", "text/csv"⟩] []).files
      = [⟨⟨"g.csv", "text/csv"⟩, -6, .uploading (-6) 1⟩] ∧
    (dropHandler "X" false [⟨⟨"f.csv", "text/csv"⟩, -5, .uploading (-5) 50⟩]
        (-6) [⟨"g.csv", "text/csv"⟩] []).cancels = [] := by
  decide

/-- C3 (amended): in single-file mode, dropping a new accepted file while
one record is present removes the existing record before the new one is
added — exactly one record remains — but the removal goes through
`removeFile` and invokes no cancel handle, whatever the state of the
existing record. -/
theorem dropHandler_singleFile_replace (maxSizeDisplay : String)
    (f0 : UploadFileInfo) (g : File) (counter : Int) :
    dropHandler maxSizeDisplay false [f0] counter [g] [] =
      ⟨[⟨g, counter, .uploading counter 1⟩], counter - 1, [counter], []⟩ := by
  simp [dropHandler, uploadAll, uploadFileStep, nextLocalFileId,
    mkRejectedInfos, removeFile]

/-! ### C2 — single-file salvage of `too-many-files` rejections -/

/-- C2 (counterexample): with zero accepted files and two rejections of
which only the second carries the single `too-many-files` error — so the
claim's hypothesis "some rejection carries exactly one error whose code is
too-many-files" holds — the remaining rejected file is recorded with the
message synthesized from its own first error code
(`"image/png files are not allowed."`), not the claimed
`"Only one file is allowed."`. -/
theorem dropHandler_salvage_message_counterexample :
    (∃ r ∈ [(⟨⟨"a.png", "image/png"⟩,
          [⟨"file-invalid-type"⟩]⟩ : FileRejection),
        ⟨⟨"b.png", "image/png"⟩, [⟨"too-many-files"⟩]⟩],
      r.errors.length = 1 ∧ firstErrorCode r = "too-many-files") ∧
    (dropHandler "X" false [] (-1) []
        [⟨⟨"a.png", "image/png"⟩, [⟨"file-invalid-type"⟩]⟩,
         ⟨⟨"b.png", "image/png"⟩, [⟨"too-many-files"⟩]⟩]).files
      = [⟨⟨"b.png", "image/png"⟩, -1, .uploading (-1) 1⟩,
         ⟨⟨"a.png", "image/png"⟩, -2,
           .error "image/png files are not allowed."⟩] ∧
    "image/png files are not allowed." ≠ "Only one file is allowed." := by
  decide

/-- C2 (amended): in single-file mode with zero accepted files and more than
one rejected file, when every rejection carries exactly the single error
`too-many-files`, the first rejected file is reclassified and uploaded —
exactly one record enters `uploading`, with exactly one transport call and
no cancel — and every remaining rejected file becomes a terminal `error`
record with message "Only one file is allowed.". -/
theorem dropHandler_salvage_all_tooMany (maxSizeDisplay : String)
    (files : List UploadFileInfo) (counter : Int)
    (r : FileRejection) (rest : List FileRejection)
    (hall : ∀ x ∈ r :: rest, x.errors = [⟨"too-many-files"⟩])
    (hlen : rest ≠ []) :
    (dropHandler maxSizeDisplay false files counter [] (r :: rest)).uploads
        = [counter] ∧
    (dropHandler maxSizeDisplay false files counter [] (r :: rest)).cancels
        = [] ∧
    (dropHandler maxSizeDisplay false files counter [] (r :: rest)).files
        = (match files with
           | [] => []
           | f0 :: _ => removeFile files f0.id)
          ++ ⟨r.file, counter, .uploading counter 1⟩
            :: (mkRejectedInfos maxSizeDisplay rest (counter - 1)).1 ∧
    ∀ x ∈ (mkRejectedInfos maxSizeDisplay rest (counter - 1)).1,
      x.status = .error "Only one file is allowed." := by
  obtain ⟨x0, xs, rfl⟩ := List.exists_cons_of_ne_nil hlen
  have hr : r.errors = [⟨"too-many-files"⟩] :=
    hall r (List.mem_cons_self _ _)
  have hrest : ∀ y ∈ x0 :: xs, y.errors = [⟨"too-many-files"⟩] := fun y hy =>
    hall y (List.mem_cons_of_mem _ hy)
  have hsal : salvageFirst (r :: x0 :: xs) = (some r.file, x0 :: xs) := by
    simp [salvageFirst, hr, firstErrorCode]
  have hgt : (1 : Nat) < (r :: x0 :: xs).length := by
    simp only [List.length_cons]
    omega
  refine ⟨?_, ?_, ?_, mkRejectedInfos_all_tooMany _ _ _ hrest⟩ <;>
    cases files <;>
      simp [dropHandler, hsal, hgt, uploadAll, uploadFileStep,
        nextLocalFileId]

/-- Witness for `dropHandler_salvage_all_tooMany`: two rejections, both
rejected solely for `too-many-files`; exactly one upload is enqueued. -/
theorem dropHandler_salvage_all_tooMany_witness :
    (dropHandler "X" false [] (-1) []
        [⟨⟨"a.png", "image/png"⟩, [⟨"too-many-files"⟩]⟩,
         ⟨⟨"b.png", "image/png"⟩, [⟨"too-many-files"⟩]⟩]).uploads = [-1] :=
  (dropHandler_salvage_all_tooMany "X" [] (-1)
    ⟨⟨"a.png", "image/png"⟩, [⟨"too-many-files"⟩]⟩
    [⟨⟨"b.png", "image/png"⟩, [⟨"too-many-files"⟩]⟩]
    (by decide) (by decide)).1

/-! ### C4 — registry synchronization -/

/-- C4 (counterexample): two files are added in order and complete with
server ids 5 and 9, 5 completing last, with `componentDidUpdate` running
after every state settle; the registry receives exactly one `set`, marked
`fromUi: true`, with value `[5, 9]` — record order, not the claimed
`[9, 5]` — and no `set` with `[9, 5]` ever occurs. -/
theorem sync_order_counterexample :
    (let u1 := (uploadFileStep ⟨"f1.csv", "text/csv"⟩ (-1)).1
     let u2 := (uploadFileStep ⟨"f2.csv", "text/csv"⟩
       (uploadFileStep ⟨"f1.csv", "text/csv"⟩ (-1)).2).1
     let afterNine := settleSuccess [u1, u2] u2 9
     let step1 := componentDidUpdate false false afterNine ⟨none, [], []⟩
     let afterFive := settleSuccess step1.1 u1 5
     let step2 := componentDidUpdate false false afterFive step1.2
     let step3 := componentDidUpdate false false step2.1 step2.2
     step1.2.intLog = [] ∧
     step3.2.intLog = [([5, 9], true)] ∧
     ¬ ([9, 5], true) ∈ step3.2.intLog) := by
  decide

/-- C4 (amended): with no disabled transition, whenever the aggregate status
is `ready` and `uploadedFileIds` differs from the stored registry value,
`componentDidUpdate` pushes the new list exactly once, marked
`fromUi: true`; running `componentDidUpdate` again on the result pushes
nothing (no duplicate call for an unchanged value). -/
theorem componentDidUpdate_pushes_once (d : Bool)
    (files : List UploadFileInfo) (reg : Registry)
    (hready : status files = FileUploaderStatus.ready)
    (hdiff : uploadedFileIds files ≠ reg.getIntArrayValue.getD []) :
    (componentDidUpdate d d files reg).2.intLog
        = reg.intLog ++ [(uploadedFileIds files, true)] ∧
    (componentDidUpdate d d (componentDidUpdate d d files reg).1
        (componentDidUpdate d d files reg).2).2.intLog
      = (componentDidUpdate d d files reg).2.intLog := by
  have hfirst : componentDidUpdate d d files reg
      = (files, reg.setIntArrayValue (uploadedFileIds files) true) := by
    simp [componentDidUpdate, hready, hdiff]
  rw [hfirst]
  refine ⟨rfl, ?_⟩
  simp [componentDidUpdate, hready, Registry.setIntArrayValue,
    Registry.getIntArrayValue]

/-- Witness for `componentDidUpdate_pushes_once`: two uploaded records with
server ids 5 and 9 against an empty registry. -/
theorem componentDidUpdate_pushes_once_witness :
    (componentDidUpdate false false
        [⟨⟨"f1.csv", "text/csv"⟩, 5, .uploaded⟩,
         ⟨⟨"f2.csv", "text/csv"⟩, 9, .uploaded⟩]
        ⟨none, [], []⟩).2.intLog = [([5, 9], true)] :=
  (componentDidUpdate_pushes_once false
    [⟨⟨"f1.csv", "text/csv"⟩, 5, .uploaded⟩,
     ⟨⟨"f2.csv", "text/csv"⟩, 9, .uploaded⟩]
    ⟨none, [], []⟩ (by decide) (by decide)).1

end StreamlitModel
